import Mathlib

/- Shallow embedding of src/main.py: a bibliographic-metadata aggregation
pipeline.  Four provider adapters (PubMed, arXiv, CrossRef, Europe PMC) map
provider responses into a common record schema, the records are deduplicated
by (lowercased title, year), and the unique records are written to a CSV
file.  HTTP responses are modelled as explicit data fed to each adapter;
Python exceptions are modelled with Except, and the two unbounded while
loops are modelled with an explicit fuel parameter counting iterations. -/

/-- Python str.join: join a list of strings with a separator. -/
def pyJoin (sep : String) : List String → String
  | [] => ""
  | [x] => x
  | x :: xs => x ++ sep ++ pyJoin sep xs

/-- Python str.lower, character by character. -/
def pyLower (s : String) : String := String.mk (s.toList.map Char.toLower)

/-- Python str.strip: remove leading and trailing whitespace. -/
def pyStrip (s : String) : String :=
  String.mk (((s.toList.dropWhile Char.isWhitespace).reverse.dropWhile Char.isWhitespace).reverse)

/-- Python str.split with a one-character separator and no maxsplit:
yields the (possibly empty) chunks between separator occurrences, so the
result is never the empty list. -/
def pySplitChar (sep : Char) : List Char → List (List Char)
  | [] => [[]]
  | c :: cs =>
    if c == sep then [] :: pySplitChar sep cs
    else
      match pySplitChar sep cs with
      | [] => [[c]]
      | g :: gs => (c :: g) :: gs

/-- The first chunk of a Python single-character split: split(sep)[0],
which always exists. -/
def pySplitHead (sep : Char) (s : String) : String :=
  String.mk ((pySplitChar sep s.toList).headD [])

/-- The common record schema built by every adapter (the dict literals of
src/main.py).  Field types follow the Python expressions that populate them:
every adapter produces plain strings for Source, Title, Authors, Year and
DOI, while the arXiv adapter stores raw ElementTree text for Abstract
(line 72) and URL (line 74), which Python types as str-or-None, hence those
two fields are Option String and the other adapters wrap theirs in some. -/
structure Record where
  Source : String
  Title : String
  Authors : String
  Year : String
  Abstract : Option String
  DOI : String
  URL : Option String
  deriving DecidableEq

/-- The fixed search query (src/main.py line 28). -/
def QUERY : String := "(\"digital twin\" OR \"virtual patient\" OR \"in silico patient\" OR \"surrogate model\" OR \"physics-informed neural network\") AND (multiscale OR multiphysics OR hybrid modeling OR \"precision medicine\" OR workflow OR \"model validation\" OR \"uncertainty quantification\")"

/-- The retrieval budget MAX_RESULTS (src/main.py line 29). -/
def MAX_RESULTS : Nat := 100000

/-- The dedup key (src/main.py line 169): the lowercased title paired with
the year string taken verbatim. -/
def dedupKey (r : Record) : String × String := (pyLower r.Title, r.Year)

/-- The dedup scan (src/main.py lines 166-172): one pass over the records,
keeping a record iff its key has not been seen; the seen set is modelled as
the list of keys inserted so far. -/
def dedupLoop : List (String × String) → List Record → List Record
  | _, [] => []
  | seen, r :: rs =>
    if dedupKey r ∈ seen then dedupLoop seen rs
    else r :: dedupLoop (dedupKey r :: seen) rs

/-- unique_results: the dedup scan started with an empty seen set. -/
def dedup (rs : List Record) : List Record := dedupLoop [] rs

/-- Python str() applied to an optional integer (a CrossRef date part):
None prints as the literal string "None". -/
def pyStr : Option Int → String
  | none => "None"
  | some n => toString n

/-- Map f over a list, failing when f fails on any element; models a Python
loop that raises while converting the elements of a response page. -/
def traverseOption {α β : Type} (f : α → Option β) : List α → Option (List β)
  | [] => some []
  | a :: l =>
    match f a, traverseOption f l with
    | some b, some bs => some (b :: bs)
    | _, _ => none

/-- What one adapter run yields: the records it appends to the global
results list, and the diagnostic lines it prints. -/
abbrev AdapterResult := List Record × List String

/-- A parsed Medline record, restricted to the keys read by src/main.py
lines 44-49; an absent key is none, matching dict.get defaulting. -/
structure PubmedRec where
  TI : Option String
  AU : Option (List String)
  DP : Option String
  AB : Option String
  LID : Option String
  PMID : Option String
  deriving DecidableEq

/-- The record dict built per Medline record (src/main.py lines 42-50):
title stripped, authors joined with "; ", year the first space-delimited
token of DP, URL synthesized from the PMID. -/
def pubmedRecToRecord (rec : PubmedRec) : Record :=
  { Source := "PubMed",
    Title := pyStrip (rec.TI.getD ""),
    Authors := pyJoin "; " (rec.AU.getD []),
    Year := pySplitHead ' ' (rec.DP.getD ""),
    Abstract := some (rec.AB.getD ""),
    DOI := rec.LID.getD "",
    URL := some ("https://pubmed.ncbi.nlm.nih.gov/" ++ rec.PMID.getD "" ++ "/") }

/-- Outcome of the PubMed transport: the HTTP status of the Entrez calls and
the parsed Medline records (none when parsing raises). -/
structure PubmedResp where
  status : Nat
  recs : Option (List PubmedRec)

/-- search_pubmed (src/main.py lines 33-50).  The function performs no
status check and prints nothing: on a non-200 response the urllib client
underneath Bio.Entrez raises HTTPError, modelled as Except.error, which
aborts the whole script since the call site (line 153) is unguarded. -/
def search_pubmed (resp : PubmedResp) : Except Unit AdapterResult :=
  if resp.status ≠ 200 then Except.error ()
  else
    match resp.recs with
    | none => Except.error ()
    | some recs => Except.ok (recs.map pubmedRecToRecord, [])

/-- An arXiv Atom entry as read by src/main.py lines 66-75.  For each
element lookup, the outer Option is element presence (find returning None
makes the subsequent .text access raise AttributeError) and the inner
Option is the element text, which ElementTree types as str-or-None. -/
structure ArxivEntry where
  title : Option (Option String)
  authorNames : List (Option String)
  published : Option (Option String)
  summary : Option (Option String)
  idUrl : Option (Option String)
  deriving DecidableEq

/-- The record dict built per arXiv entry (src/main.py lines 67-75); none
models the conversion raising: a missing element, or None text reaching
strip, split or join.  The summary text and the id text are stored raw
(no strip, no default), so a produced record can carry a null Abstract or
URL when the element is present with empty text. -/
def arxivEntryToRecord (e : ArxivEntry) : Option Record :=
  match e.title, traverseOption id e.authorNames, e.published, e.summary, e.idUrl with
  | some (some t), some names, some (some p), some s, some u =>
    some { Source := "arXiv",
           Title := pyStrip t,
           Authors := pyJoin "; " names,
           Year := pySplitHead '-' p,
           Abstract := s,
           DOI := "",
           URL := u }
  | _, _, _, _, _ => none

/-- One arXiv page fetch: the HTTP status (never inspected by the code) and
the entry list (none when ET.fromstring raises on the body). -/
structure ArxivPage where
  status : Nat
  entries : Option (List ArxivEntry)

/-- The arXiv pagination loop (src/main.py lines 58-77), fuel-indexed: one
fuel unit per iteration of the while loop, none when the fuel runs out
before the loop exits.  The stream maps each start offset to the fetched
page; the batch size is the fixed 200 and the budget is checked only before
fetching a page.  The loop prints nothing, so the diagnostics component of
a normal exit is always empty. -/
def arxivLoop (stream : Nat → ArxivPage) (budget : Nat) :
    Nat → Nat → Nat → List Record → Option (Except Unit AdapterResult)
  | 0, _, retrieved, acc =>
    if budget ≤ retrieved then some (Except.ok (acc, [])) else none
  | fuel + 1, start, retrieved, acc =>
    if budget ≤ retrieved then some (Except.ok (acc, []))
    else
      match (stream start).entries with
      | none => some (Except.error ())
      | some entries =>
        if entries.isEmpty then some (Except.ok (acc, []))
        else
          match traverseOption arxivEntryToRecord entries with
          | none => some (Except.error ())
          | some recs =>
            arxivLoop stream budget fuel (start + 200) (retrieved + entries.length) (acc ++ recs)

/-- search_arxiv (src/main.py lines 53-77): budget + 1 fuel is exact, since
each iteration either exits or increases retrieved by at least one (proved
below as arxivLoop_total). -/
def search_arxiv (stream : Nat → ArxivPage) (budget : Nat) :
    Option (Except Unit AdapterResult) :=
  arxivLoop stream budget (budget + 1) 0 0 []

/-- A CrossRef author object: the given and family keys, when present. -/
structure CrossrefAuthor where
  given : Option String
  family : Option String
  deriving DecidableEq

/-- The author display name (src/main.py lines 99-105): given then family,
each included only when its key is present, joined with a single space. -/
def crossrefAuthorName (a : CrossrefAuthor) : String :=
  pyJoin " "
    ((match a.given with | some g => [g] | none => []) ++
     (match a.family with | some f => [f] | none => []))

/-- A CrossRef item, restricted to the keys read by src/main.py
lines 96-115: dateParts models item.issued.date-parts, a list of lists of
optional integers; none at the outer level means the issued or date-parts
key is absent. -/
structure CrossrefItem where
  titles : Option (List String)
  authors : Option (List CrossrefAuthor)
  dateParts : Option (List (List (Option Int)))
  doi : Option String
  url : Option String
  deriving DecidableEq

/-- The date-parts access with its [[None]] default, indexed [0][0]
(src/main.py line 111), as an optional value: none models the IndexError
raised when an explicitly present date-parts entry is an empty list. -/
def crossrefYearCell (item : CrossrefItem) : Option (Option Int) :=
  ((item.dateParts.getD [[none]]).head?).bind List.head?

/-- The record dict built per CrossRef item (src/main.py lines 96-115);
none models an IndexError from title[0] or date-parts[0][0].  An absent
issued/date-parts key defaults to [[None]] (line 111), whose [0][0] is
None, printed by str() as the literal "None". -/
def crossrefItemToRecord (item : CrossrefItem) : Option Record :=
  match (item.titles.getD [""]).head?, crossrefYearCell item with
  | some title, some cell =>
    some { Source := "CrossRef",
           Title := pyStrip title,
           Authors := pyJoin "; " ((item.authors.getD []).map crossrefAuthorName),
           Year := pyStr cell,
           Abstract := some "",
           DOI := item.doi.getD "",
           URL := some (item.url.getD "") }
  | _, _ => none

/-- The query parameters of the single CrossRef request (src/main.py
lines 86-89). -/
structure CrossrefParams where
  query : String
  rows : Nat

/-- The parameters search_crossref sends: the rows count is the literal 50
(line 88); the budget argument records that MAX_RESULTS plays no role in
this adapter, which issues exactly one page request. -/
def crossrefRequest (_budget : Nat) : CrossrefParams :=
  { query := QUERY, rows := 50 }

/-- Outcome of the CrossRef request: HTTP status, and the item list of the
parsed JSON body (none when r.json() raises). -/
structure CrossrefResp where
  status : Nat
  items : Option (List CrossrefItem)

/-- search_crossref (src/main.py lines 84-115): a non-200 status prints the
diagnostic and returns with nothing accumulated (lines 91-93); otherwise
the items are converted, raising on a malformed item. -/
def search_crossref (resp : CrossrefResp) : Except Unit AdapterResult :=
  if resp.status ≠ 200 then
    Except.ok ([], ["[CrossRef] Failed request (status " ++ toString resp.status ++ ")"])
  else
    match resp.items with
    | none => Except.error ()
    | some items =>
      match traverseOption crossrefItemToRecord items with
      | none => Except.error ()
      | some recs => Except.ok (recs, [])

/-- A Europe PMC hit, restricted to the keys read by src/main.py
lines 139-148; every field is read via dict.get with a default, so the
conversion below is total. -/
structure EpmcHit where
  title : Option String
  authorFullNames : Option (List (Option String))
  pubYear : Option String
  abstractText : Option String
  doi : Option String
  src : Option String
  id : Option String
  deriving DecidableEq

/-- The record dict built per Europe PMC hit (src/main.py lines 140-148):
pubYear is passed through str(), which is the identity on the string value
the API returns, and the URL is synthesized from the source and id keys. -/
def epmcHitToRecord (h : EpmcHit) : Record :=
  { Source := "Europe PMC",
    Title := pyStrip (h.title.getD ""),
    Authors := pyJoin "; " ((h.authorFullNames.getD []).map (fun a => a.getD "")),
    Year := h.pubYear.getD "",
    Abstract := some (h.abstractText.getD ""),
    DOI := h.doi.getD "",
    URL := some ("https://europepmc.org/article/" ++ h.src.getD "" ++ "/" ++ h.id.getD "") }

/-- One Europe PMC page fetch: HTTP status and the result list of the
parsed JSON body (none when r.json() raises). -/
structure EpmcPage where
  status : Nat
  hits : Option (List EpmcHit)

/-- The Europe PMC pagination loop (src/main.py lines 124-150),
fuel-indexed like arxivLoop; pages are numbered from 1 and the page size is
the fixed 100.  On a non-200 status the loop prints the diagnostic with the
provider name and status and breaks, keeping what was accumulated. -/
def epmcLoop (stream : Nat → EpmcPage) (budget : Nat) :
    Nat → Nat → Nat → List Record → Option (Except Unit AdapterResult)
  | 0, _, retrieved, acc =>
    if budget ≤ retrieved then some (Except.ok (acc, [])) else none
  | fuel + 1, page, retrieved, acc =>
    if budget ≤ retrieved then some (Except.ok (acc, []))
    else
      if (stream page).status ≠ 200 then
        some (Except.ok
          (acc, ["[Europe PMC] Failed request (status " ++ toString (stream page).status ++ ")"]))
      else
        match (stream page).hits with
        | none => some (Except.error ())
        | some hits =>
          if hits.isEmpty then some (Except.ok (acc, []))
          else
            epmcLoop stream budget fuel (page + 1) (retrieved + hits.length)
              (acc ++ hits.map epmcHitToRecord)

/-- search_europe_pmc (src/main.py lines 118-150). -/
def search_europe_pmc (stream : Nat → EpmcPage) (budget : Nat) :
    Option (Except Unit AdapterResult) :=
  epmcLoop stream budget (budget + 1) 1 0 []

/-- The four top-level adapter calls (src/main.py lines 153-156), run
sequentially and unguarded: an exception raised by any adapter aborts the
remaining ones, while normal outputs concatenate in call order. -/
def run_searches (pm : PubmedResp) (ax : Nat → ArxivPage) (cr : CrossrefResp)
    (ep : Nat → EpmcPage) (budget : Nat) : Option (Except Unit AdapterResult) :=
  match search_pubmed pm with
  | Except.error e => some (Except.error e)
  | Except.ok (r1, l1) =>
    match search_arxiv ax budget with
    | none => none
    | some (Except.error e) => some (Except.error e)
    | some (Except.ok (r2, l2)) =>
      match search_crossref cr with
      | Except.error e => some (Except.error e)
      | Except.ok (r3, l3) =>
        match search_europe_pmc ep budget with
        | none => none
        | some (Except.error e) => some (Except.error e)
        | some (Except.ok (r4, l4)) =>
          some (Except.ok (r1 ++ r2 ++ r3 ++ r4, l1 ++ l2 ++ l3 ++ l4))

/-- How the csv module renders a dict value: None becomes an empty field,
a string is taken verbatim. -/
def pyCsvStr : Option String → String
  | none => ""
  | some s => s

/-- QUOTE_MINIMAL (the csv module default used at src/main.py line 184):
a field is quoted iff it contains the delimiter, the quote character, or a
line-terminator character. -/
def csvNeedsQuote (s : String) : Bool :=
  s.toList.any (fun c => c == ',' || c == '"' || c == '\r' || c == '\n')

/-- Double every quote character (csv doublequote behaviour). -/
def dupQuotes : List Char → List Char
  | [] => []
  | c :: cs => if c == '"' then '"' :: '"' :: dupQuotes cs else c :: dupQuotes cs

/-- One rendered CSV field under QUOTE_MINIMAL. -/
def csvField (s : String) : String :=
  if csvNeedsQuote s then "\"" ++ String.mk (dupQuotes s.toList) ++ "\"" else s

/-- One CSV row: rendered fields joined with commas, terminated with CRLF
(the csv default lineterminator, written verbatim because the file is
opened with newline="" at src/main.py line 183). -/
def csvRow (fields : List String) : String :=
  pyJoin "," (fields.map csvField) ++ "\r\n"

/-- The fixed column schema (src/main.py line 184). -/
def csvFieldnames : List String :=
  ["Source", "Title", "Authors", "Year", "Abstract", "DOI", "URL"]

/-- The values DictWriter reads from one record dict, in fieldnames order. -/
def recordFields (r : Record) : List String :=
  [r.Source, r.Title, r.Authors, r.Year, pyCsvStr r.Abstract, r.DOI, pyCsvStr r.URL]

/-- The data rows, one writerow per record (src/main.py lines 186-187). -/
def csvRows : List Record → String
  | [] => ""
  | r :: rs => csvRow (recordFields r) ++ csvRows rs

/-- The full text written to oos/combined_results.csv (src/main.py
lines 183-187): the header row then one row per unique record. -/
def exportCsv (rs : List Record) : String :=
  csvRow csvFieldnames ++ csvRows rs

/-- The number of newline characters in a string: the line count a reader
observes on a file that ends in a newline, as every exportCsv output does. -/
def numLines (s : String) : Nat := s.toList.count '\n'

/-- Stated from the spec (section 3): a year field is text representing a
4-digit year, or empty if unknown.  Used only to compare the adapters'
actual year strings against the specified shape. -/
def specFourDigitYearOrEmpty (s : String) : Bool :=
  s == "" || (s.length == 4 && s.toList.all (fun c => c.isDigit))

/-- The non-null-fields invariant on a produced record: the two fields the
code can populate with raw ElementTree text are present; the other five
fields are plain strings by construction. -/
def recordNonNull (r : Record) : Prop :=
  r.Abstract.isSome = true ∧ r.URL.isSome = true

/-- The number of records of a successful adapter run outcome. -/
def okCount : Option (Except Unit AdapterResult) → Nat
  | some (Except.ok (rs, _)) => rs.length
  | _ => 0

/-- Fixture: a record with year "2022". -/
def recYearPlain : Record :=
  { Source := "PubMed", Title := "Digital Twins in Medicine", Authors := "A",
    Year := "2022", Abstract := some "", DOI := "", URL := some "" }

/-- Fixture: same title, year "2022 " with a trailing space. -/
def recYearSpace : Record :=
  { Source := "arXiv", Title := "Digital Twins in Medicine", Authors := "B",
    Year := "2022 ", Abstract := some "", DOI := "", URL := some "" }

/-- Fixture: mixed-case title, year "2022". -/
def recCaseUpper : Record :=
  { Source := "PubMed", Title := "Digital Twins in Medicine", Authors := "A",
    Year := "2022", Abstract := some "", DOI := "", URL := some "" }

/-- Fixture: the same title lowercased, same year. -/
def recCaseLower : Record :=
  { Source := "CrossRef", Title := "digital twins in medicine", Authors := "C",
    Year := "2022", Abstract := some "", DOI := "", URL := some "" }

/-- Fixture: first record of the dedup demonstration list. -/
def wrecA : Record :=
  { Source := "PubMed", Title := "Alpha", Authors := "A", Year := "2020",
    Abstract := some "", DOI := "", URL := some "" }

/-- Fixture: a later record colliding with wrecA on the dedup key. -/
def wrecB : Record :=
  { Source := "arXiv", Title := "ALPHA", Authors := "B", Year := "2020",
    Abstract := some "x", DOI := "", URL := some "" }

/-- Fixture: a two-record input whose records collide. -/
def wdemo : List Record := [wrecA, wrecB]

/-- Fixture: an arXiv page with a non-success status whose body still
parses to an empty feed. -/
def arxivErrPage : ArxivPage := { status := 500, entries := some [] }

/-- Fixture: a stream returning the non-success arXiv page forever. -/
def arxivErrStream : Nat → ArxivPage := fun _ => arxivErrPage

/-- Fixture: a failed CrossRef response. -/
def crResp404 : CrossrefResp := { status := 404, items := some [] }

/-- Fixture: a failed PubMed response. -/
def pmResp500 : PubmedResp := { status := 500, recs := some [] }

/-- Fixture: a failed Europe PMC page. -/
def epmcErrPage : EpmcPage := { status := 503, hits := some [] }

/-- Fixture: a stream returning the failed Europe PMC page forever. -/
def epmcErrStream : Nat → EpmcPage := fun _ => epmcErrPage

/-- Fixture: an arXiv entry whose summary element is present but empty, so
its text is None and the produced record has a null Abstract. -/
def arxivNullSummaryEntry : ArxivEntry :=
  { title := some (some "A Title"), authorNames := [some "Alice"],
    published := some (some "2021-06-01"), summary := some none,
    idUrl := some (some "http://arxiv.org/abs/1") }

/-- Fixture: a well-formed Medline record. -/
def wPubmedRec : PubmedRec :=
  { TI := some "T", AU := some ["X"], DP := some "2020 Jan", AB := none,
    LID := none, PMID := some "123" }

/-- Fixture: a well-formed Europe PMC hit. -/
def wEpmcHit : EpmcHit :=
  { title := some "T", authorFullNames := some [some "A"],
    pubYear := some "2019", abstractText := some "ab", doi := some "d",
    src := some "MED", id := some "42" }

/-- Fixture: a well-formed CrossRef item. -/
def wCrItem : CrossrefItem :=
  { titles := some ["T"], authors := some [], dateParts := some [[some 2021]],
    doi := some "10.1/x", url := some "https://x" }

/-- Fixture: the record wCrItem converts to. -/
def wCrRecord : Record :=
  { Source := "CrossRef", Title := "T", Authors := "", Year := "2021",
    Abstract := some "", DOI := "10.1/x", URL := some "https://x" }

/-- Fixture: a well-formed arXiv entry with non-empty summary text. -/
def wArxivEntry : ArxivEntry :=
  { title := some (some "T"), authorNames := [some "A"],
    published := some (some "2024-01-15"), summary := some (some "Sum"),
    idUrl := some (some "http://arxiv.org/abs/2") }

/-- Fixture: the record wArxivEntry converts to. -/
def wArxivRecord : Record :=
  { Source := "arXiv", Title := "T", Authors := "A", Year := "2024",
    Abstract := some "Sum", DOI := "", URL := some "http://arxiv.org/abs/2" }

/-- Fixture: a Europe PMC hit with no pubYear. -/
def epmcNoYearHit : EpmcHit :=
  { title := some "T", authorFullNames := none, pubYear := none,
    abstractText := none, doi := none, src := none, id := none }

/-- Fixture: a Europe PMC hit with pubYear "2022". -/
def epmcYearHit : EpmcHit :=
  { title := some "T", authorFullNames := none, pubYear := some "2022",
    abstractText := none, doi := none, src := none, id := none }

/-- Fixture: a CrossRef item whose issued/date-parts key is absent. -/
def crossrefNoDateItem : CrossrefItem :=
  { titles := some ["T"], authors := some [], dateParts := none,
    doi := some "10.1/x", url := some "https://doi.org/10.1/x" }

/-- Fixture: the record crossrefNoDateItem converts to, with Year "None". -/
def wCrNoDateRecord : Record :=
  { Source := "CrossRef", Title := "T", Authors := "", Year := "None",
    Abstract := some "", DOI := "10.1/x", URL := some "https://doi.org/10.1/x" }

/-- Fixture: an arXiv page that always holds exactly one entry, the
pathological stream of the termination question. -/
def arxivOnePage : ArxivPage := { status := 200, entries := some [wArxivEntry] }

/-- Fixture: the always-one-entry stream. -/
def onePerPageStream : Nat → ArxivPage := fun _ => arxivOnePage

/-- Fixture: a plain exportable record. -/
def wexpRec1 : Record :=
  { Source := "PubMed", Title := "T one", Authors := "A; B", Year := "2020",
    Abstract := some "plain", DOI := "10.1/a", URL := some "http://u" }

/-- Fixture: a second exportable record with a comma in the title. -/
def wexpRec2 : Record :=
  { Source := "arXiv", Title := "T, two", Authors := "C", Year := "2021",
    Abstract := none, DOI := "", URL := some "http://v" }

/-- Fixture: a two-record export input. -/
def wexpList : List Record := [wexpRec1, wexpRec2]

/-- Fixture: a record whose abstract contains an embedded newline. -/
def newlineAbstractRec : Record :=
  { Source := "PubMed", Title := "T", Authors := "A", Year := "2020",
    Abstract := some "line1\nline2", DOI := "", URL := some "u" }

/-- Fixture: an arXiv entry for a full 200-entry page. -/
def arxivEntry0 : ArxivEntry :=
  { title := some (some "T"), authorNames := [],
    published := some (some "2024-01-01"), summary := some (some "S"),
    idUrl := some (some "http://x") }

/-- Fixture: a full arXiv page of 200 entries. -/
def arxivFullPage : ArxivPage :=
  { status := 200, entries := some (List.replicate 200 arxivEntry0) }

/-- Fixture: a stream of full arXiv pages. -/
def arxivFullStream : Nat → ArxivPage := fun _ => arxivFullPage

/-- Fixture: a Europe PMC hit for a full 100-hit page. -/
def epmcHit0 : EpmcHit :=
  { title := some "T", authorFullNames := none, pubYear := some "2020",
    abstractText := none, doi := none, src := some "MED", id := some "1" }

/-- Fixture: a full Europe PMC page of 100 hits. -/
def epmcFullPage : EpmcPage :=
  { status := 200, hits := some (List.replicate 100 epmcHit0) }

/-- Fixture: a stream of full Europe PMC pages. -/
def epmcFullStream : Nat → EpmcPage := fun _ => epmcFullPage

/-- Fixture: an empty arXiv page. -/
def arxivEmptyPage : ArxivPage := { status := 200, entries := some [] }

/-- Fixture: a stream of empty arXiv pages. -/
def arxivEmptyStream : Nat → ArxivPage := fun _ => arxivEmptyPage

/-- Fixture: an empty Europe PMC page. -/
def epmcEmptyPage : EpmcPage := { status := 200, hits := some [] }

/-- Fixture: a stream of empty Europe PMC pages. -/
def epmcEmptyStream : Nat → EpmcPage := fun _ => epmcEmptyPage

/-- Appending strings concatenates their character lists. -/
theorem string_toList_append (a b : String) : (a ++ b).toList = a.toList ++ b.toList := by
  cases a
  cases b
  rfl

/-- Newline counts add over string append. -/
theorem numLines_append (a b : String) : numLines (a ++ b) = numLines a + numLines b := by
  simp [numLines, string_toList_append, List.count_append]

/-- The dedup scan output is a sublist of its input. -/
theorem dedupLoop_sublist (seen : List (String × String)) (rs : List Record) :
    (dedupLoop seen rs).Sublist rs := by
  induction rs generalizing seen with
  | nil => simp [dedupLoop]
  | cons r rs ih =>
    by_cases h : dedupKey r ∈ seen
    · simp only [dedupLoop, if_pos h]
      exact (ih seen).cons r
    · simp only [dedupLoop, if_neg h]
      exact (ih (dedupKey r :: seen)).cons₂ r

/-- No record kept by the dedup scan has a key from the seen set. -/
theorem dedupLoop_not_seen (seen : List (String × String)) (rs : List Record)
    (u : Record) (hu : u ∈ dedupLoop seen rs) : dedupKey u ∉ seen := by
  induction rs generalizing seen with
  | nil => simp [dedupLoop] at hu
  | cons r rs ih =>
    by_cases h : dedupKey r ∈ seen
    · rw [dedupLoop, if_pos h] at hu
      exact ih seen hu
    · rw [dedupLoop, if_neg h] at hu
      rcases List.mem_cons.mp hu with heq | hu2
      · subst heq
        exact h
      · intro hc
        exact ih (dedupKey r :: seen) hu2 (List.mem_cons_of_mem _ hc)

/-- The keys of the dedup scan output are pairwise distinct. -/
theorem dedupLoop_keys_nodup (seen : List (String × String)) (rs : List Record) :
    ((dedupLoop seen rs).map dedupKey).Nodup := by
  induction rs generalizing seen with
  | nil => simp [dedupLoop]
  | cons r rs ih =>
    by_cases h : dedupKey r ∈ seen
    · rw [dedupLoop, if_pos h]
      exact ih seen
    · rw [dedupLoop, if_neg h]
      simp only [List.map_cons, List.nodup_cons]
      refine ⟨?_, ih (dedupKey r :: seen)⟩
      intro hmem
      rcases List.mem_map.mp hmem with ⟨u, hu, hk⟩
      have hns := dedupLoop_not_seen (dedupKey r :: seen) rs u hu
      rw [hk] at hns
      exact hns (List.mem_cons_self _ _)

/-- Every input record's key is either already seen or represented in the
dedup scan output. -/
theorem dedupLoop_covers (seen : List (String × String)) (rs : List Record) :
    ∀ r, r ∈ rs →
      dedupKey r ∈ seen ∨ ∃ u, u ∈ dedupLoop seen rs ∧ dedupKey u = dedupKey r := by
  induction rs generalizing seen with
  | nil =>
    intro r hr
    cases hr
  | cons x rs ih =>
    intro r hr
    by_cases h : dedupKey x ∈ seen
    · rw [dedupLoop, if_pos h]
      rcases List.mem_cons.mp hr with heq | hr2
      · subst heq
        exact Or.inl h
      · exact ih seen r hr2
    · rw [dedupLoop, if_neg h]
      rcases List.mem_cons.mp hr with heq | hr2
      · subst heq
        exact Or.inr ⟨r, List.mem_cons_self _ _, rfl⟩
      · rcases ih (dedupKey x :: seen) r hr2 with hin | ⟨u, hu, hk⟩
        · rcases List.mem_cons.mp hin with heq2 | hin2
          · exact Or.inr ⟨x, List.mem_cons_self _ _, heq2.symm⟩
          · exact Or.inl hin2
        · exact Or.inr ⟨u, List.mem_cons_of_mem _ hu, hk⟩

/-- Every record kept by the dedup scan is the first input record bearing
its key. -/
theorem dedupLoop_first (seen : List (String × String)) (rs : List Record)
    (u : Record) (hu : u ∈ dedupLoop seen rs) :
    rs.find? (fun x => decide (dedupKey x = dedupKey u)) = some u := by
  induction rs generalizing seen with
  | nil => simp [dedupLoop] at hu
  | cons r rs ih =>
    by_cases h : dedupKey r ∈ seen
    · rw [dedupLoop, if_pos h] at hu
      have hne : ¬ dedupKey r = dedupKey u := by
        intro he
        exact dedupLoop_not_seen seen rs u hu (he ▸ h)
      rw [List.find?_cons_of_neg _ (by simpa using hne)]
      exact ih seen hu
    · rw [dedupLoop, if_neg h] at hu
      rcases List.mem_cons.mp hu with heq | hu2
      · subst heq
        rw [List.find?_cons_of_pos _ (by simp)]
      · have hne : ¬ dedupKey r = dedupKey u := by
          intro he
          exact dedupLoop_not_seen (dedupKey r :: seen) rs u hu2
            (he ▸ List.mem_cons_self _ _)
        rw [List.find?_cons_of_neg _ (by simpa using hne)]
        exact ih (dedupKey r :: seen) hu2

/-- The dedup scan is the identity on inputs whose keys are pairwise
distinct and disjoint from the seen set. -/
theorem dedupLoop_id (seen : List (String × String)) (rs : List Record)
    (h1 : ∀ r, r ∈ rs → dedupKey r ∉ seen) (h2 : (rs.map dedupKey).Nodup) :
    dedupLoop seen rs = rs := by
  induction rs generalizing seen with
  | nil => rfl
  | cons r rs ih =>
    have hr : dedupKey r ∉ seen := h1 r (List.mem_cons_self _ _)
    rw [dedupLoop, if_neg hr]
    simp only [List.map_cons, List.nodup_cons] at h2
    congr 1
    apply ih
    · intro x hx
      intro hc
      rcases List.mem_cons.mp hc with heq | hc2
      · exact h2.1 (heq ▸ List.mem_map_of_mem dedupKey hx)
      · exact h1 x (List.mem_cons_of_mem _ hx) hc2
    · exact h2.2

/-- C1: the Deduplicator treats two records as the same iff their dedup
keys agree, i.e. iff their titles are case-insensitively identical (equal
after Python lower()) and their year strings are byte-identical; in
particular, identical titles with years "2022" and "2022 " give distinct
keys and both records survive, while a pure case difference in the title
keeps only the first record. -/
theorem dedup_key_collision_iff :
    (∀ r1 r2 : Record, dedupKey r1 = dedupKey r2 ↔
      (pyLower r1.Title = pyLower r2.Title ∧ r1.Year = r2.Year)) ∧
    dedup [recYearPlain, recYearSpace] = [recYearPlain, recYearSpace] ∧
    dedup [recCaseUpper, recCaseLower] = [recCaseUpper] := by
  refine ⟨fun r1 r2 => ?_, by decide, by decide⟩
  simp [dedupKey, Prod.ext_iff]

/-- C2: the Deduplicator output is an ordered subsequence of its input
(so surviving records are input records, unmodified), its length is at
most the input length, its keys are pairwise distinct, every input key is
represented, and every surviving record is the first input record bearing
its key. -/
theorem dedup_spec (rs : List Record) :
    (dedup rs).Sublist rs ∧
    (dedup rs).length ≤ rs.length ∧
    ((dedup rs).map dedupKey).Nodup ∧
    (∀ r, r ∈ rs → ∃ u, u ∈ dedup rs ∧ dedupKey u = dedupKey r) ∧
    (∀ u, u ∈ dedup rs →
      rs.find? (fun x => decide (dedupKey x = dedupKey u)) = some u) := by
  refine ⟨dedupLoop_sublist [] rs, (dedupLoop_sublist [] rs).length_le,
    dedupLoop_keys_nodup [] rs, ?_, ?_⟩
  · intro r hr
    rcases dedupLoop_covers [] rs r hr with hin | hex
    · cases hin
    · exact hex
  · intro u hu
    exact dedupLoop_first [] rs u hu

/-- C2 witness: on the concrete two-record input wdemo, whose records
collide, the output is a sublist and the surviving record is the first
occurrence of its key. -/
theorem dedup_spec_witness :
    (dedup wdemo).Sublist wdemo ∧
    wdemo.find? (fun x => decide (dedupKey x = dedupKey wrecA)) = some wrecA :=
  ⟨(dedup_spec wdemo).1, (dedup_spec wdemo).2.2.2.2 wrecA (by decide)⟩

/-- C6: the Deduplicator is idempotent: deduplicating its own output
returns that output unchanged. -/
theorem dedup_idempotent (rs : List Record) : dedup (dedup rs) = dedup rs := by
  unfold dedup
  apply dedupLoop_id
  · intro r hr
    simp
  · exact dedupLoop_keys_nodup [] rs

/-- Doubling quote characters leaves the newline count unchanged. -/
theorem dupQuotes_count_newline (cs : List Char) :
    (dupQuotes cs).count '\n' = cs.count '\n' := by
  induction cs with
  | nil => rfl
  | cons c cs ih =>
    simp only [dupQuotes]
    split
    next h =>
      have hc : c = '"' := by simpa using h
      subst hc
      simp [List.count_cons, ih]
    next h =>
      simp [List.count_cons, ih]

/-- Rendering one field never introduces a newline. -/
theorem numLines_csvField (f : String) (h : numLines f = 0) :
    numLines (csvField f) = 0 := by
  unfold csvField
  split
  · rw [numLines_append, numLines_append]
    have h2 : numLines (String.mk (dupQuotes f.toList)) = 0 := by
      show (dupQuotes f.toList).count '\n' = 0
      rw [dupQuotes_count_newline]
      exact h
    have h3 : numLines "\"" = 0 := by decide
    omega
  · exact h

/-- Joining newline-free strings with a newline-free separator stays
newline-free. -/
theorem numLines_pyJoin (sep : String) (hsep : numLines sep = 0)
    (l : List String) (h : ∀ f, f ∈ l → numLines f = 0) :
    numLines (pyJoin sep l) = 0 := by
  induction l with
  | nil => rfl
  | cons x xs ih =>
    cases xs with
    | nil =>
      show numLines x = 0
      exact h x (List.mem_cons_self _ _)
    | cons y ys =>
      show numLines (x ++ sep ++ pyJoin sep (y :: ys)) = 0
      rw [numLines_append, numLines_append]
      have h1 : numLines x = 0 := h x (List.mem_cons_self _ _)
      have h2 : numLines (pyJoin sep (y :: ys)) = 0 :=
        ih (fun f hf => h f (List.mem_cons_of_mem _ hf))
      omega

/-- A row over newline-free fields occupies exactly one line. -/
theorem numLines_csvRow (fields : List String)
    (h : ∀ f, f ∈ fields → numLines f = 0) : numLines (csvRow fields) = 1 := by
  unfold csvRow
  rw [numLines_append]
  have h1 : numLines (pyJoin "," (fields.map csvField)) = 0 := by
    apply numLines_pyJoin
    · decide
    · intro g hg
      rcases List.mem_map.mp hg with ⟨f, hf, rfl⟩
      exact numLines_csvField f (h f hf)
  have h2 : numLines "\r\n" = 1 := by decide
  omega

/-- The data rows over newline-free fields occupy one line per record. -/
theorem numLines_csvRows (rs : List Record)
    (h : ∀ r, r ∈ rs → ∀ f, f ∈ recordFields r → numLines f = 0) :
    numLines (csvRows rs) = rs.length := by
  induction rs with
  | nil => rfl
  | cons r rs ih =>
    show numLines (csvRow (recordFields r) ++ csvRows rs) = (r :: rs).length
    rw [numLines_append, numLines_csvRow _ (h r (List.mem_cons_self _ _)),
      ih (fun x hx => h x (List.mem_cons_of_mem _ hx))]
    simp [Nat.add_comm]

/-- C8 (amended): for records none of whose rendered fields contains a
newline character, the Exporter output is exactly one header line plus one
line per record, and the header is the fixed 7-column schema; a field with
an embedded newline is quoted and spans several physical lines instead
(see the counterexample). -/
theorem export_line_count (rs : List Record) (_hne : rs ≠ [])
    (hclean : ∀ r, r ∈ rs → ∀ f, f ∈ recordFields r → numLines f = 0) :
    numLines (exportCsv rs) = rs.length + 1 ∧
    csvRow csvFieldnames = "Source,Title,Authors,Year,Abstract,DOI,URL\r\n" := by
  constructor
  · unfold exportCsv
    rw [numLines_append, numLines_csvRow csvFieldnames (by decide),
      numLines_csvRows rs hclean]
    omega
  · decide

/-- C8 witness: a concrete two-record export (one field even contains a
comma, exercising quoting) yields exactly three lines. -/
theorem export_line_count_witness :
    numLines (exportCsv wexpList) = wexpList.length + 1 ∧
    csvRow csvFieldnames = "Source,Title,Authors,Year,Abstract,DOI,URL\r\n" :=
  export_line_count wexpList (by decide) (by decide)

/-- C8 counterexample: a single record whose abstract contains an embedded
newline produces a 3-line file, not the claimed len + 1 = 2 lines: the csv
module quotes the field and the newline is written inside the quotes. -/
theorem export_embedded_newline_counterexample :
    ¬ numLines (exportCsv [newlineAbstractRec]) = [newlineAbstractRec].length + 1 ∧
    numLines (exportCsv [newlineAbstractRec]) = 3 :=
  ⟨by decide, by decide⟩

/-- C4 (amended): records from the PubMed, Europe PMC and CrossRef adapters
always carry non-null values in all seven fields (the five plain-string
fields by construction, Abstract and URL proved here); the arXiv adapter
instead passes the summary element text through unchecked, so its records
carry whatever the element held, null included (see the counterexample). -/
theorem record_non_null_fields :
    (∀ rec : PubmedRec, recordNonNull (pubmedRecToRecord rec)) ∧
    (∀ h : EpmcHit, recordNonNull (epmcHitToRecord h)) ∧
    (∀ item : CrossrefItem, ∀ r : Record,
      crossrefItemToRecord item = some r → recordNonNull r) ∧
    (∀ e : ArxivEntry, ∀ r : Record, ∀ s : Option String,
      e.summary = some s → arxivEntryToRecord e = some r → r.Abstract = s) := by
  refine ⟨fun rec => ⟨rfl, rfl⟩, fun h => ⟨rfl, rfl⟩, ?_, ?_⟩
  · intro item r hr
    unfold crossrefItemToRecord at hr
    split at hr
    · injection hr with h2
      subst h2
      exact ⟨rfl, rfl⟩
    · cases hr
  · intro e r s hs hr
    unfold arxivEntryToRecord at hr
    rw [hs] at hr
    split at hr
    · rename_i t names p s2 u h1 h2 h3 h4 h5
      injection hr with h6
      subst h6
      injection h4 with h7
      exact h7.symm
    · cases hr

/-- C4 witness: concrete well-formed inputs for three adapters produce
records with non-null Abstract and URL, and a concrete arXiv entry with
summary text "Sum" passes it through. -/
theorem record_non_null_fields_witness :
    recordNonNull (pubmedRecToRecord wPubmedRec) ∧
    recordNonNull wCrRecord ∧
    wArxivRecord.Abstract = some "Sum" :=
  ⟨record_non_null_fields.1 wPubmedRec,
   record_non_null_fields.2.2.1 wCrItem wCrRecord (by decide),
   record_non_null_fields.2.2.2 wArxivEntry wArxivRecord (some "Sum") rfl (by decide)⟩

/-- C4 counterexample: the arXiv entry whose summary element is present but
empty converts successfully, yet the produced record's Abstract is null,
refuting "never an absent or null field" for arXiv records. -/
theorem arxiv_null_abstract_counterexample :
    (arxivEntryToRecord arxivNullSummaryEntry).map (fun r => r.Abstract) = some none ∧
    (arxivEntryToRecord arxivNullSummaryEntry).isSome = true :=
  ⟨by decide, by decide⟩

/-- A successfully converted CrossRef item carries the printed form of its
date-parts[0][0] cell as its Year. -/
theorem crossrefItemToRecord_year (item : CrossrefItem) (r : Record)
    (h : crossrefItemToRecord item = some r) :
    (crossrefYearCell item).map pyStr = some r.Year := by
  unfold crossrefItemToRecord at h
  split at h
  · rename_i title cell h1 h2
    injection h with h3
    subst h3
    rw [h2]
    rfl
  · cases h

/-- C5 (amended): no adapter validates the year shape; each passes the
provider-derived string through.  Europe PMC uses pubYear verbatim (empty
when absent); CrossRef prints date-parts[0][0], which is the literal
string "None" when the issued/date-parts key is absent (see the
counterexample) and the decimal form of the leading integer when present;
PubMed takes the first space-delimited token of DP; arXiv takes the text
of the published date before the first dash. -/
theorem adapter_year_extraction :
    (∀ h : EpmcHit, h.pubYear = none → (epmcHitToRecord h).Year = "") ∧
    (∀ h : EpmcHit, ∀ y, h.pubYear = some y → (epmcHitToRecord h).Year = y) ∧
    (∀ item : CrossrefItem, ∀ r : Record, item.dateParts = none →
      crossrefItemToRecord item = some r → r.Year = "None") ∧
    (∀ item : CrossrefItem, ∀ r : Record, ∀ n : Int, ∀ row rows,
      item.dateParts = some ((some n :: row) :: rows) →
      crossrefItemToRecord item = some r → r.Year = toString n) ∧
    (∀ rec : PubmedRec, ∀ d, rec.DP = some d →
      (pubmedRecToRecord rec).Year = pySplitHead ' ' d) ∧
    (∀ e : ArxivEntry, ∀ r : Record, ∀ p, e.published = some (some p) →
      arxivEntryToRecord e = some r → r.Year = pySplitHead '-' p) := by
  refine ⟨?_, ?_, ?_, ?_, ?_, ?_⟩
  · intro h hy
    simp [epmcHitToRecord, hy]
  · intro h y hy
    simp [epmcHitToRecord, hy]
  · intro item r hdp hr
    have hy := crossrefItemToRecord_year item r hr
    rw [show crossrefYearCell item = some none by
        unfold crossrefYearCell
        rw [hdp]
        rfl] at hy
    injection hy with h2
    exact h2.symm
  · intro item r n row rows hdp hr
    have hy := crossrefItemToRecord_year item r hr
    rw [show crossrefYearCell item = some (some n) by
        unfold crossrefYearCell
        rw [hdp]
        rfl] at hy
    injection hy with h2
    exact h2.symm
  · intro rec d hd
    simp [pubmedRecToRecord, hd]
  · intro e r p hp hr
    unfold arxivEntryToRecord at hr
    rw [hp] at hr
    split at hr
    · rename_i t names p2 s u h1 h2 h3 h4 h5
      injection hr with h6
      subst h6
      injection h3 with h7
      injection h7 with h8
      exact h8.symm ▸ rfl
    · cases hr

/-- C5 witness: concrete instances of the year pass-through, including the
"None" year of a CrossRef item without date metadata. -/
theorem adapter_year_extraction_witness :
    (epmcHitToRecord epmcNoYearHit).Year = "" ∧
    (epmcHitToRecord epmcYearHit).Year = "2022" ∧
    wCrNoDateRecord.Year = "None" ∧
    wCrRecord.Year = toString (2021 : Int) :=
  ⟨adapter_year_extraction.1 epmcNoYearHit rfl,
   adapter_year_extraction.2.1 epmcYearHit "2022" rfl,
   adapter_year_extraction.2.2.1 crossrefNoDateItem wCrNoDateRecord rfl (by decide),
   adapter_year_extraction.2.2.2.1 wCrItem wCrRecord 2021 [] [] rfl (by decide)⟩

/-- C5 counterexample: a CrossRef item whose issued/date-parts key is
absent converts to a record whose Year is the literal string "None" —
neither a 4-digit year nor empty, refuting the claimed invariant. -/
theorem crossref_year_literal_none_counterexample :
    (crossrefItemToRecord crossrefNoDateItem).map (fun r => r.Year) = some "None" ∧
    specFourDigitYearOrEmpty "None" = false :=
  ⟨by decide, by decide⟩

/-- C9: the CrossRef adapter sends a fixed row count of 50 whatever the
budget is, and reconstructs an author display name from the given and
family parts joined with one space, skipping absent parts. -/
theorem crossref_fixed_rows_and_author_names :
    (∀ budget : Nat, (crossrefRequest budget).rows = 50) ∧
    (∀ g f : String,
      crossrefAuthorName { given := some g, family := some f } = g ++ " " ++ f) ∧
    (∀ g : String, crossrefAuthorName { given := some g, family := none } = g) ∧
    (∀ f : String, crossrefAuthorName { given := none, family := some f } = f) ∧
    crossrefAuthorName { given := none, family := none } = "" :=
  ⟨fun _ => rfl, fun _ _ => rfl, fun _ => rfl, fun _ => rfl, rfl⟩

/-- Converting a page of entries preserves the entry count on success. -/
theorem traverseOption_length {α β : Type} (f : α → Option β) :
    ∀ l l2, traverseOption f l = some l2 → l2.length = l.length := by
  intro l
  induction l with
  | nil =>
    intro l2 h
    injection h with h2
    subst h2
    rfl
  | cons a l ih =>
    intro l2 h
    unfold traverseOption at h
    split at h
    · rename_i b bs hb hbs
      injection h with h2
      subst h2
      simp [ih bs hbs]
    · cases h

/-- The arXiv loop yields an outcome whenever the fuel exceeds the gap
between the budget and the retrieved count: every iteration either exits
or increases the retrieved count by at least one page entry. -/
theorem arxivLoop_total (stream : Nat → ArxivPage) (budget : Nat) :
    ∀ fuel start retrieved acc, budget < fuel + retrieved →
      (arxivLoop stream budget fuel start retrieved acc).isSome = true := by
  intro fuel
  induction fuel with
  | zero =>
    intro start retrieved acc h
    have hb : budget ≤ retrieved := by omega
    simp [arxivLoop, hb]
  | succ fuel ih =>
    intro start retrieved acc h
    by_cases hb : budget ≤ retrieved
    · simp [arxivLoop, hb]
    · simp only [arxivLoop, if_neg hb]
      split
      · simp
      · rename_i entries hentries
        split
        · simp
        · rename_i hne
          split
          · simp
          · rename_i recs hm
            apply ih
            have hlen : 0 < entries.length := by
              cases entries with
              | nil => exact absurd rfl hne
              | cons a l => simp
            omega

/-- The Europe PMC loop yields an outcome whenever the fuel exceeds the
gap between the budget and the retrieved count. -/
theorem epmcLoop_total (stream : Nat → EpmcPage) (budget : Nat) :
    ∀ fuel page retrieved acc, budget < fuel + retrieved →
      (epmcLoop stream budget fuel page retrieved acc).isSome = true := by
  intro fuel
  induction fuel with
  | zero =>
    intro page retrieved acc h
    have hb : budget ≤ retrieved := by omega
    simp [epmcLoop, hb]
  | succ fuel ih =>
    intro page retrieved acc h
    by_cases hb : budget ≤ retrieved
    · simp [epmcLoop, hb]
    · simp only [epmcLoop, if_neg hb]
      split
      · simp
      · split
        · simp
        · rename_i hits hhits
          split
          · simp
          · rename_i hne
            apply ih
            have hlen : 0 < hits.length := by
              cases hits with
              | nil => exact absurd rfl hne
              | cons a l => simp
            omega

/-- Records accumulated by the arXiv loop stay within one page (at most
200 entries) of the budget, provided the server honours the page size. -/
theorem arxivLoop_ok_bound (stream : Nat → ArxivPage) (budget : Nat)
    (hp : ∀ s, ((stream s).entries.getD []).length ≤ 200) :
    ∀ fuel start retrieved acc recs logs,
      acc.length = retrieved → retrieved ≤ budget + 199 →
      arxivLoop stream budget fuel start retrieved acc = some (Except.ok (recs, logs)) →
      recs.length ≤ budget + 199 := by
  intro fuel
  induction fuel with
  | zero =>
    intro start retrieved acc recs logs hacc hb h
    unfold arxivLoop at h
    split at h
    · simp only [Option.some.injEq, Except.ok.injEq, Prod.mk.injEq] at h
      obtain ⟨h4, h5⟩ := h
      subst h4
      omega
    · cases h
  | succ fuel ih =>
    intro start retrieved acc recs logs hacc hb h
    unfold arxivLoop at h
    split at h
    · simp only [Option.some.injEq, Except.ok.injEq, Prod.mk.injEq] at h
      obtain ⟨h4, h5⟩ := h
      subst h4
      omega
    · rename_i hblt
      split at h
      · simp at h
      · rename_i entries hentries
        split at h
        · simp only [Option.some.injEq, Except.ok.injEq, Prod.mk.injEq] at h
          obtain ⟨h4, h5⟩ := h
          subst h4
          omega
        · split at h
          · simp at h
          · rename_i recsPage hm
            have hlen : recsPage.length = entries.length :=
              traverseOption_length _ entries recsPage hm
            have hstream := hp start
            rw [hentries] at hstream
            simp only [Option.getD] at hstream
            apply ih (start + 200) (retrieved + entries.length) (acc ++ recsPage) recs logs
            · simp [hacc, hlen]
            · omega
            · exact h

/-- Records accumulated by the Europe PMC loop stay within one page (at
most 100 hits) of the budget, provided the server honours the page size. -/
theorem epmcLoop_ok_bound (stream : Nat → EpmcPage) (budget : Nat)
    (hp : ∀ p, ((stream p).hits.getD []).length ≤ 100) :
    ∀ fuel page retrieved acc recs logs,
      acc.length = retrieved → retrieved ≤ budget + 99 →
      epmcLoop stream budget fuel page retrieved acc = some (Except.ok (recs, logs)) →
      recs.length ≤ budget + 99 := by
  intro fuel
  induction fuel with
  | zero =>
    intro page retrieved acc recs logs hacc hb h
    unfold epmcLoop at h
    split at h
    · simp only [Option.some.injEq, Except.ok.injEq, Prod.mk.injEq] at h
      obtain ⟨h4, h5⟩ := h
      subst h4
      omega
    · cases h
  | succ fuel ih =>
    intro page retrieved acc recs logs hacc hb h
    unfold epmcLoop at h
    split at h
    · simp only [Option.some.injEq, Except.ok.injEq, Prod.mk.injEq] at h
      obtain ⟨h4, h5⟩ := h
      subst h4
      omega
    · rename_i hblt
      split at h
      · simp only [Option.some.injEq, Except.ok.injEq, Prod.mk.injEq] at h
        obtain ⟨h4, h5⟩ := h
        subst h4
        omega
      · split at h
        · simp at h
        · rename_i hits hhits
          split at h
          · simp only [Option.some.injEq, Except.ok.injEq, Prod.mk.injEq] at h
            obtain ⟨h4, h5⟩ := h
            subst h4
            omega
          · rename_i hne
            have hstream := hp page
            rw [hhits] at hstream
            simp only [Option.getD] at hstream
            apply ih (page + 1) (retrieved + hits.length)
              (acc ++ hits.map epmcHitToRecord) recs logs
            · simp [hacc]
            · omega
            · exact h

/-- C3 (amended): only the CrossRef and Europe PMC adapters check the HTTP
status: on a non-200 response each prints a diagnostic carrying the
provider name and the status code and returns what was accumulated so far
(nothing for CrossRef; stated here for a failure on the first Europe PMC
page).  The PubMed adapter raises instead, printing nothing, and the arXiv
adapter ignores the status entirely (see the counterexample); because the
four top-level calls are unguarded, a PubMed exception prevents every
remaining adapter from contributing. -/
theorem adapter_status_handling :
    (∀ resp : CrossrefResp, resp.status ≠ 200 →
      search_crossref resp =
        Except.ok ([], ["[CrossRef] Failed request (status " ++ toString resp.status ++ ")"])) ∧
    (∀ stream : Nat → EpmcPage, ∀ budget, 0 < budget → (stream 1).status ≠ 200 →
      search_europe_pmc stream budget =
        some (Except.ok
          ([], ["[Europe PMC] Failed request (status " ++ toString (stream 1).status ++ ")"]))) ∧
    (∀ resp : PubmedResp, resp.status ≠ 200 → search_pubmed resp = Except.error ()) ∧
    (∀ pm : PubmedResp, ∀ ax : Nat → ArxivPage, ∀ cr : CrossrefResp,
      ∀ ep : Nat → EpmcPage, ∀ budget, pm.status ≠ 200 →
      run_searches pm ax cr ep budget = some (Except.error ())) := by
  refine ⟨?_, ?_, ?_, ?_⟩
  · intro resp h
    unfold search_crossref
    rw [if_pos h]
  · intro stream budget hb h
    unfold search_europe_pmc epmcLoop
    rw [if_neg (by omega : ¬ budget ≤ 0), if_pos h]
  · intro resp h
    unfold search_pubmed
    rw [if_pos h]
  · intro pm ax cr ep budget h
    unfold run_searches
    rw [show search_pubmed pm = Except.error () from by
      unfold search_pubmed
      rw [if_pos h]]

/-- C3 witness: concrete failing responses exercise all four behaviours,
including the diagnostics with the concrete status codes 404 and 503. -/
theorem adapter_status_handling_witness :
    search_crossref crResp404 =
      Except.ok ([], ["[CrossRef] Failed request (status 404)"]) ∧
    search_europe_pmc epmcErrStream 5 =
      some (Except.ok ([], ["[Europe PMC] Failed request (status 503)"])) ∧
    search_pubmed pmResp500 = Except.error () ∧
    run_searches pmResp500 arxivErrStream crResp404 epmcErrStream 5 =
      some (Except.error ()) :=
  ⟨adapter_status_handling.1 crResp404 (by decide),
   adapter_status_handling.2.1 epmcErrStream 5 (by decide) (by decide),
   adapter_status_handling.2.2.1 pmResp500 (by decide),
   adapter_status_handling.2.2.2 pmResp500 arxivErrStream crResp404 epmcErrStream 5
     (by decide)⟩

/-- C3 counterexample: fed a page with HTTP status 500 whose body still
parses to an empty feed, the arXiv adapter finishes with an empty record
list and prints no diagnostic at all — no provider name, no status code —
refuting the claim for the arXiv adapter. -/
theorem arxiv_silent_status_counterexample :
    arxivErrPage.status = 500 ∧
    search_arxiv arxivErrStream 5 = some (Except.ok ([], [])) :=
  ⟨rfl, rfl⟩

/-- C7 (amended): the arXiv pagination loop checks the budget before each
page and stops on an empty page or a parse failure; since every non-empty
page increases the retrieved count by at least one, the budget is always
eventually reached and the loop terminates within budget + 1 iterations —
no response stream, however pathological, makes it run forever.  The
Europe PMC loop terminates for the same reason. -/
theorem arxiv_epmc_loops_terminate :
    (∀ stream : Nat → ArxivPage, ∀ budget,
      (search_arxiv stream budget).isSome = true) ∧
    (∀ stream : Nat → EpmcPage, ∀ budget,
      (search_europe_pmc stream budget).isSome = true) :=
  ⟨fun stream budget => arxivLoop_total stream budget (budget + 1) 0 0 [] (by omega),
   fun stream budget => epmcLoop_total stream budget (budget + 1) 1 0 [] (by omega)⟩

/-- C7 counterexample: on the pathological stream whose every page holds
exactly one entry, with the source's own budget MAX_RESULTS, the arXiv
loop still terminates — the budget is reached after at most MAX_RESULTS
pages — so the claimed non-termination cannot occur. -/
theorem arxiv_pathological_stream_terminates :
    (search_arxiv onePerPageStream MAX_RESULTS).isSome = true :=
  arxivLoop_total onePerPageStream MAX_RESULTS (MAX_RESULTS + 1) 0 0 [] (by omega)

set_option maxRecDepth 8000 in
/-- C10: the budget is checked only before fetching a page and every entry
of a fetched page is appended, so a successful arXiv run can exceed the
budget by at most 199 records and a Europe PMC run by at most 99 (given
pages no larger than the requested 200 and 100); the concrete full-page
streams with budget 1 reach those maxima exactly. -/
theorem adapter_budget_overshoot :
    (∀ stream : Nat → ArxivPage, ∀ budget recs logs,
      (∀ s, ((stream s).entries.getD []).length ≤ 200) →
      search_arxiv stream budget = some (Except.ok (recs, logs)) →
      recs.length ≤ budget + 199) ∧
    (∀ stream : Nat → EpmcPage, ∀ budget recs logs,
      (∀ p, ((stream p).hits.getD []).length ≤ 100) →
      search_europe_pmc stream budget = some (Except.ok (recs, logs)) →
      recs.length ≤ budget + 99) ∧
    okCount (search_arxiv arxivFullStream 1) = 1 + 199 ∧
    okCount (search_europe_pmc epmcFullStream 1) = 1 + 99 := by
  refine ⟨?_, ?_, by decide, by decide⟩
  · intro stream budget recs logs hp h
    exact arxivLoop_ok_bound stream budget hp (budget + 1) 0 0 [] recs logs rfl
      (by omega) h
  · intro stream budget recs logs hp h
    exact epmcLoop_ok_bound stream budget hp (budget + 1) 1 0 [] recs logs rfl
      (by omega) h

/-- C10 witness: the bounds applied to the concrete empty streams with
budget 5, whose loops stop at once with zero records. -/
theorem adapter_budget_overshoot_witness :
    List.length ([] : List Record) ≤ 5 + 199 ∧
    List.length ([] : List Record) ≤ 5 + 99 :=
  ⟨adapter_budget_overshoot.1 arxivEmptyStream 5 [] [] (fun _ => Nat.zero_le 200) rfl,
   adapter_budget_overshoot.2.1 epmcEmptyStream 5 [] [] (fun _ => Nat.zero_le 100) rfl⟩
